import Mathlib

/-!
Shallow embedding of `src/app.rs` from the small-vulkan-tutorial repository.

The program initializes a Vulkan context: it loads the entry points,
enumerates instance layers, negotiates extensions and layers (depending on a
compile-time validation flag and the target platform), creates the instance,
optionally attaches a debug messenger, and exposes trivial `render` and
`destroy` operations.

The external Vulkan API is modelled by an environment `Env` fixing the
outcome of every fallible call; each operation returns the list of API calls
it performed (in order) together with its result, so ordering and
"never invoked" properties are statable.
-/

namespace VulkanTutorial

/-- Extension and layer names, modelled as strings. -/
abbrev Name := String

/-- `VALIDATION_LAYER`: the fixed Khronos validation-layer name. -/
def VALIDATION_LAYER : Name := "VK_LAYER_KHRONOS_validation"

/-- The debug-utils (diagnostics) instance extension name. -/
def EXT_DEBUG_UTILS_EXTENSION : Name := "VK_EXT_debug_utils"

/-- The physical-device-properties2 portability extension name. -/
def KHR_GET_PHYSICAL_DEVICE_PROPERTIES2_EXTENSION : Name :=
  "VK_KHR_get_physical_device_properties2"

/-- The portability-enumeration extension name. -/
def KHR_PORTABILITY_ENUMERATION_EXTENSION : Name :=
  "VK_KHR_portability_enumeration"

/-- A Vulkan API version triple (the variant field is always zero in this
program and is omitted). -/
structure Version where
  major : Nat
  minor : Nat
  patch : Nat
deriving Repr, DecidableEq

/-- Lexicographic order on version triples, mirroring the derived `Ord` of
the bindings' `Version` type used by `>=` in the source. -/
def Version.le (a b : Version) : Bool :=
  Nat.blt a.major b.major ||
    (a.major == b.major &&
      (Nat.blt a.minor b.minor ||
        (a.minor == b.minor && Nat.ble a.patch b.patch)))

/-- `PORTABILITY_MACOS_VERSION`: the fixed macOS portability threshold,
`Version::new(1, 3, 126)` in the source. -/
def PORTABILITY_MACOS_VERSION : Version := ⟨1, 3, 126⟩

/-- `VK_DEBUG_UTILS_MESSAGE_SEVERITY_VERBOSE_BIT_EXT`. -/
def SEVERITY_VERBOSE : Nat := 0x1

/-- `VK_DEBUG_UTILS_MESSAGE_SEVERITY_INFO_BIT_EXT`. -/
def SEVERITY_INFO : Nat := 0x10

/-- `VK_DEBUG_UTILS_MESSAGE_SEVERITY_WARNING_BIT_EXT`. -/
def SEVERITY_WARNING : Nat := 0x100

/-- `VK_DEBUG_UTILS_MESSAGE_SEVERITY_ERROR_BIT_EXT`. -/
def SEVERITY_ERROR : Nat := 0x1000

/-- `vk::FALSE`, the "do not suppress" return value of the callback. -/
def FALSE : Nat := 0

/-- `InstanceCreateFlags::ENUMERATE_PORTABILITY_KHR` (bit value 1). -/
def ENUMERATE_PORTABILITY_KHR : Nat := 1

/-- Which branch of `debug_callback` fired: `panic!`, `warn!`, `dbg!`, or
`println!`. -/
inductive LogBranch where
  | panicAbort
  | warnLog
  | debugTrace
  | printTrace
deriving Repr, DecidableEq

/-- The observable outcome of one `debug_callback` invocation: the branch
taken, the type value and message carried into that branch's output, and the
value returned to the API (`none` when the branch aborts the process). -/
structure CallbackResult where
  branch : LogBranch
  reasonType : Nat
  reasonMessage : String
  returnValue : Option Nat
deriving Repr, DecidableEq

/-- `debug_callback` from `src/app.rs`: routes one diagnostic event by
severity. `severity` and `type_` are the raw flag-bit values; the source
compares flag values with `>=`, which on these bindings is numeric order on
the underlying bits. -/
def debug_callback (severity type_ : Nat) (message : String) : CallbackResult :=
  if SEVERITY_ERROR ≤ severity then
    ⟨LogBranch.panicAbort, type_, message, none⟩
  else if SEVERITY_WARNING ≤ severity then
    ⟨LogBranch.warnLog, type_, message, some FALSE⟩
  else if SEVERITY_INFO ≤ severity then
    ⟨LogBranch.debugTrace, type_, message, some FALSE⟩
  else
    ⟨LogBranch.printTrace, type_, message, some FALSE⟩

/-- The window collaborator: supplies the required instance extensions
(`vk_window::get_required_instance_extensions`). -/
structure Window where
  requiredExtensions : List Name
deriving Repr, DecidableEq

/-- The outcome of every fallible external call for one run. Handles are
naturals with `0` the null handle; error codes are naturals. -/
structure Env where
  loaderResult : Except Nat Unit
  entryResult : Except Nat Unit
  enumerateLayersResult : Except Nat (List Name)
  versionResult : Except Nat Version
  createInstanceResult : Except Nat Nat
  createMessengerResult : Except Nat Nat
deriving Repr

/-- Compile-time configuration: `VALIDATION_ENABLED` (`cfg!(debug_assertions)`)
and whether the target platform is macOS (`cfg!(target_os = "macos")`). -/
structure Config where
  validationEnabled : Bool
  macos : Bool
deriving Repr, DecidableEq

/-- `AppData`: holds the messenger handle; `#[derive(Default)]` gives the
null handle `0`. -/
structure AppData where
  messenger : Nat
deriving Repr, DecidableEq

/-- `AppData::default()`: the messenger handle is the null handle. -/
def AppData.default : AppData := ⟨0⟩

/-- The errors surfaced by initialization, one per failing call site. -/
inductive InitError where
  | loaderError (code : Nat)
  | entryLoadError (code : Nat)
  | unsupportedLayerError
  | enumerateLayersFailure (code : Nat)
  | versionQueryFailure (code : Nat)
  | instanceCreationError (code : Nat)
  | diagnosticsInstallError (code : Nat)
deriving Repr, DecidableEq

/-- One external API call, recorded in order of occurrence. The
instance-creation call records the layer list, extension list and flags
actually passed. -/
inductive Call where
  | loadLibrary
  | createEntry
  | enumerateLayers
  | versionQuery
  | createInstance (layers extensions : List Name) (flags : Nat)
  | createMessenger
  | destroyMessenger (handle : Nat)
  | destroyInstance
deriving Repr, DecidableEq

/-- The tail of `create_instance` after layers, extensions and flags are
fixed: build the create info, call `entry.create_instance`, and when
validation is enabled attach the debug messenger
(`instance.create_debug_utils_messenger_ext`), storing the handle in
`data.messenger`. -/
def finishCreate (cfg : Config) (env : Env) (data : AppData)
    (trace : List Call) (layers extensions : List Name) (flags : Nat) :
    List Call × Except InitError (Nat × AppData) :=
  let trace := trace ++ [Call.createInstance layers extensions flags]
  match env.createInstanceResult with
  | .error c => (trace, .error (.instanceCreationError c))
  | .ok inst =>
    if cfg.validationEnabled then
      let trace := trace ++ [Call.createMessenger]
      match env.createMessengerResult with
      | .error c => (trace, .error (.diagnosticsInstallError c))
      | .ok m => (trace, .ok (inst, { data with messenger := m }))
    else
      (trace, .ok (inst, data))

/-- `create_instance` from `src/app.rs`: collect the window's required
extensions; enumerate available layers (propagating failure with `?`); if
validation is enabled and the validation layer is absent, fail; append the
debug-utils extension and the validation layer when validation is enabled;
on macOS query the loaded version (propagating failure) and, when it is at
least `PORTABILITY_MACOS_VERSION`, append the two portability extensions and
set the portability flag; then create the instance and, when validation is
enabled, the messenger. -/
def create_instance (cfg : Config) (window : Window) (env : Env)
    (data : AppData) : List Call × Except InitError (Nat × AppData) :=
  let extensions := window.requiredExtensions
  match env.enumerateLayersResult with
  | .error c => ([Call.enumerateLayers], .error (.enumerateLayersFailure c))
  | .ok available_layers =>
    if cfg.validationEnabled && !(available_layers.contains VALIDATION_LAYER) then
      ([Call.enumerateLayers], .error .unsupportedLayerError)
    else
      let extensions :=
        if cfg.validationEnabled then extensions ++ [EXT_DEBUG_UTILS_EXTENSION]
        else extensions
      let layers : List Name :=
        if cfg.validationEnabled then [VALIDATION_LAYER] else []
      if cfg.macos then
        match env.versionResult with
        | .error c =>
          ([Call.enumerateLayers, Call.versionQuery],
            .error (.versionQueryFailure c))
        | .ok v =>
          if PORTABILITY_MACOS_VERSION.le v then
            finishCreate cfg env data [Call.enumerateLayers, Call.versionQuery]
              layers
              (extensions ++ [KHR_GET_PHYSICAL_DEVICE_PROPERTIES2_EXTENSION,
                KHR_PORTABILITY_ENUMERATION_EXTENSION])
              ENUMERATE_PORTABILITY_KHR
          else
            finishCreate cfg env data [Call.enumerateLayers, Call.versionQuery]
              layers extensions 0
      else
        finishCreate cfg env data [Call.enumerateLayers] layers extensions 0

/-- `App`: owns the instance handle, the `AppData`, and the entry table. -/
structure App where
  instance_ : Nat
  data : AppData
  entry : Unit
deriving Repr, DecidableEq

/-- `App::create`: load the library, build the entry table, then run
`create_instance` on a default `AppData`. -/
def App.create (cfg : Config) (window : Window) (env : Env) :
    List Call × Except InitError App :=
  match env.loaderResult with
  | .error c => ([Call.loadLibrary], .error (.loaderError c))
  | .ok _ =>
    match env.entryResult with
    | .error c =>
      ([Call.loadLibrary, Call.createEntry], .error (.entryLoadError c))
    | .ok _ =>
      let p := create_instance cfg window env AppData.default
      let trace := [Call.loadLibrary, Call.createEntry] ++ p.1
      match p.2 with
      | .error e => (trace, .error e)
      | .ok (inst, data) =>
        (trace, .ok { instance_ := inst, data := data, entry := () })

/-- `App::render`: returns `Ok(())` and does not touch any state. -/
def App.render (app : App) (window : Window) : Except InitError Unit × App :=
  (.ok (), app)

/-- `App::destroy`: the source calls only `destroy_instance`; no
messenger-destroy call is made. -/
def App.destroy (app : App) : List Call :=
  [Call.destroyInstance]

/-- The layer list `create_instance` builds: the validation layer exactly
when validation is enabled. -/
def layersOf (cfg : Config) : List Name :=
  if cfg.validationEnabled then [VALIDATION_LAYER] else []

/-- The extension list before the portability branch: the window's required
extensions plus, when validation is enabled, the debug-utils extension. -/
def extsBase (cfg : Config) (window : Window) : List Name :=
  if cfg.validationEnabled then
    window.requiredExtensions ++ [EXT_DEBUG_UTILS_EXTENSION]
  else
    window.requiredExtensions

/-- Sample window used by concrete witnesses. -/
def windowW : Window := ⟨["VK_KHR_surface"]⟩

/-- Environment where every call succeeds and the validation layer is
available; used by concrete witnesses. -/
def envOk : Env :=
  { loaderResult := .ok ()
    entryResult := .ok ()
    enumerateLayersResult := .ok [VALIDATION_LAYER]
    versionResult := .ok ⟨1, 3, 200⟩
    createInstanceResult := .ok 1
    createMessengerResult := .ok 2 }

/-- Environment where layer enumeration succeeds but returns no layers;
used by concrete witnesses. -/
def envNoLayer : Env :=
  { envOk with enumerateLayersResult := .ok [] }

/-- Environment where layer enumeration itself fails; used by concrete
witnesses. -/
def envEnumFail : Env :=
  { envOk with enumerateLayersResult := .error 3 }

/-- Whether layer enumeration succeeded and returned the validation
layer. -/
def validationLayerAvailable (env : Env) : Bool :=
  match env.enumerateLayersResult with
  | .ok ls => ls.contains VALIDATION_LAYER
  | .error _ => false

/- ### Helper lemmas characterizing the embedded operations -/

/-- Calls already in the trace survive `finishCreate`. -/
theorem mem_finishCreate_of_mem (cfg : Config) (env : Env) (data : AppData)
    (trace : List Call) (layers extensions : List Name) (flags : Nat)
    (c : Call) (hc : c ∈ trace) :
    c ∈ (finishCreate cfg env data trace layers extensions flags).1 := by
  unfold finishCreate
  cases hci : env.createInstanceResult with
  | error code => simp [hci, hc]
  | ok inst =>
    cases hv : cfg.validationEnabled with
    | false => simp [hci, hv, hc]
    | true =>
      cases hcm : env.createMessengerResult with
      | error code => simp [hci, hv, hcm, hc]
      | ok m => simp [hci, hv, hcm, hc]

/-- Every instance-creation call in a `finishCreate` trace is either
inherited from the incoming trace or carries exactly the layers,
extensions and flags passed to `finishCreate`. -/
theorem finishCreate_createInstance_inv (cfg : Config) (env : Env)
    (data : AppData) (trace : List Call) (layers extensions : List Name)
    (flags : Nat) (l e : List Name) (f : Nat)
    (h : Call.createInstance l e f
        ∈ (finishCreate cfg env data trace layers extensions flags).1) :
    Call.createInstance l e f ∈ trace
      ∨ (l = layers ∧ e = extensions ∧ f = flags) := by
  unfold finishCreate at h
  cases hci : env.createInstanceResult with
  | error code => simp [hci] at h; tauto
  | ok inst =>
    cases hv : cfg.validationEnabled with
    | false => simp [hci, hv] at h; tauto
    | true =>
      cases hcm : env.createMessengerResult with
      | error code => simp [hci, hv, hcm] at h; tauto
      | ok m => simp [hci, hv, hcm] at h; tauto

/-- A messenger-attach call in a `finishCreate` trace is either inherited
from the incoming trace or witnesses that validation is enabled. -/
theorem finishCreate_createMessenger_inv (cfg : Config) (env : Env)
    (data : AppData) (trace : List Call) (layers extensions : List Name)
    (flags : Nat)
    (h : Call.createMessenger
        ∈ (finishCreate cfg env data trace layers extensions flags).1) :
    Call.createMessenger ∈ trace ∨ cfg.validationEnabled = true := by
  cases hv : cfg.validationEnabled with
  | true => exact Or.inr rfl
  | false =>
    unfold finishCreate at h
    cases hci : env.createInstanceResult with
    | error code => simp [hci] at h; tauto
    | ok inst => simp [hci, hv] at h; tauto

/-- On success, `finishCreate` leaves the data untouched when validation is
disabled, and stores the attach call's returned handle when it is
enabled. -/
theorem finishCreate_ok_inv (cfg : Config) (env : Env) (data : AppData)
    (trace : List Call) (layers extensions : List Name) (flags : Nat)
    (inst : Nat) (d : AppData)
    (h : (finishCreate cfg env data trace layers extensions flags).2
        = .ok (inst, d)) :
    (cfg.validationEnabled = false ∧ d = data)
      ∨ (cfg.validationEnabled = true ∧ ∃ m,
          env.createMessengerResult = .ok m ∧ d = { data with messenger := m }) := by
  unfold finishCreate at h
  cases hci : env.createInstanceResult with
  | error code => simp [hci] at h
  | ok inst' =>
    cases hv : cfg.validationEnabled with
    | false =>
      simp [hci, hv] at h
      exact Or.inl ⟨rfl, h.2.symm⟩
    | true =>
      cases hcm : env.createMessengerResult with
      | error code => simp [hci, hv, hcm] at h
      | ok m =>
        simp [hci, hv, hcm] at h
        exact Or.inr ⟨rfl, m, rfl, h.2.symm⟩

/-- The layer check passed: when validation is enabled, enumeration
succeeded and the validation layer is among the returned names. -/
def layerCheckPassed (cfg : Config) (env : Env) : Prop :=
  cfg.validationEnabled = true →
    ∃ ls, env.enumerateLayersResult = .ok ls
      ∧ ls.contains VALIDATION_LAYER = true

/-- Case analysis on `create_instance`: the run stops at layer-enumeration
failure, at the unsupported-layer check, or at the version query, or
reaches `finishCreate` with the negotiated layers, extensions and flags. -/
theorem create_instance_cases (cfg : Config) (window : Window) (env : Env)
    (data : AppData) :
    (∃ c, env.enumerateLayersResult = .error c
      ∧ create_instance cfg window env data
          = ([Call.enumerateLayers], .error (.enumerateLayersFailure c)))
  ∨ (∃ ls, env.enumerateLayersResult = .ok ls
      ∧ cfg.validationEnabled = true ∧ ls.contains VALIDATION_LAYER = false
      ∧ create_instance cfg window env data
          = ([Call.enumerateLayers], .error .unsupportedLayerError))
  ∨ (∃ c, cfg.macos = true ∧ env.versionResult = .error c
      ∧ layerCheckPassed cfg env
      ∧ create_instance cfg window env data
          = ([Call.enumerateLayers, Call.versionQuery],
              .error (.versionQueryFailure c)))
  ∨ (cfg.macos = false ∧ layerCheckPassed cfg env
      ∧ create_instance cfg window env data
          = finishCreate cfg env data [Call.enumerateLayers]
              (layersOf cfg) (extsBase cfg window) 0)
  ∨ (∃ v, cfg.macos = true ∧ env.versionResult = .ok v
      ∧ PORTABILITY_MACOS_VERSION.le v = true ∧ layerCheckPassed cfg env
      ∧ create_instance cfg window env data
          = finishCreate cfg env data
              [Call.enumerateLayers, Call.versionQuery]
              (layersOf cfg)
              (extsBase cfg window
                ++ [KHR_GET_PHYSICAL_DEVICE_PROPERTIES2_EXTENSION,
                  KHR_PORTABILITY_ENUMERATION_EXTENSION])
              ENUMERATE_PORTABILITY_KHR)
  ∨ (∃ v, cfg.macos = true ∧ env.versionResult = .ok v
      ∧ PORTABILITY_MACOS_VERSION.le v = false ∧ layerCheckPassed cfg env
      ∧ create_instance cfg window env data
          = finishCreate cfg env data
              [Call.enumerateLayers, Call.versionQuery]
              (layersOf cfg) (extsBase cfg window) 0) := by
  cases hel : env.enumerateLayersResult with
  | error c =>
    exact Or.inl ⟨c, rfl, by unfold create_instance; simp [hel]⟩
  | ok ls =>
    have macosCases : layerCheckPassed cfg env →
        ¬(cfg.validationEnabled = true ∧ VALIDATION_LAYER ∉ ls) →
        (∃ c, cfg.macos = true ∧ env.versionResult = .error c
          ∧ layerCheckPassed cfg env
          ∧ create_instance cfg window env data
              = ([Call.enumerateLayers, Call.versionQuery],
                  .error (.versionQueryFailure c)))
      ∨ (cfg.macos = false ∧ layerCheckPassed cfg env
          ∧ create_instance cfg window env data
              = finishCreate cfg env data [Call.enumerateLayers]
                  (layersOf cfg) (extsBase cfg window) 0)
      ∨ (∃ v, cfg.macos = true ∧ env.versionResult = .ok v
          ∧ PORTABILITY_MACOS_VERSION.le v = true ∧ layerCheckPassed cfg env
          ∧ create_instance cfg window env data
              = finishCreate cfg env data
                  [Call.enumerateLayers, Call.versionQuery]
                  (layersOf cfg)
                  (extsBase cfg window
                    ++ [KHR_GET_PHYSICAL_DEVICE_PROPERTIES2_EXTENSION,
                      KHR_PORTABILITY_ENUMERATION_EXTENSION])
                  ENUMERATE_PORTABILITY_KHR)
      ∨ (∃ v, cfg.macos = true ∧ env.versionResult = .ok v
          ∧ PORTABILITY_MACOS_VERSION.le v = false ∧ layerCheckPassed cfg env
          ∧ create_instance cfg window env data
              = finishCreate cfg env data
                  [Call.enumerateLayers, Call.versionQuery]
                  (layersOf cfg) (extsBase cfg window) 0) := by
      intro hpass hncond
      cases hm : cfg.macos with
      | false =>
        refine Or.inr (Or.inl ⟨rfl, hpass, ?_⟩)
        unfold create_instance
        simp [hel, hncond, hm, layersOf, extsBase]
      | true =>
        cases hver : env.versionResult with
        | error c =>
          refine Or.inl ⟨c, rfl, rfl, hpass, ?_⟩
          unfold create_instance
          simp [hel, hncond, hm, hver]
        | ok v =>
          cases hle : PORTABILITY_MACOS_VERSION.le v with
          | true =>
            refine Or.inr (Or.inr (Or.inl ⟨v, rfl, rfl, hle, hpass, ?_⟩))
            unfold create_instance
            simp [hel, hncond, hm, hver, hle, layersOf, extsBase]
          | false =>
            refine Or.inr (Or.inr (Or.inr ⟨v, rfl, rfl, hle, hpass, ?_⟩))
            unfold create_instance
            simp [hel, hncond, hm, hver, hle, layersOf, extsBase]
    cases hv : cfg.validationEnabled with
    | false =>
      have hpass : layerCheckPassed cfg env := by
        intro hv2
        rw [hv] at hv2
        exact Bool.noConfusion hv2
      have hncond : ¬(cfg.validationEnabled = true ∧ VALIDATION_LAYER ∉ ls) := by
        rintro ⟨h1, _⟩
        rw [hv] at h1
        exact Bool.noConfusion h1
      exact Or.inr (Or.inr (macosCases hpass hncond))
    | true =>
      cases hcon : ls.contains VALIDATION_LAYER with
      | false =>
        refine Or.inr (Or.inl ⟨ls, rfl, rfl, hcon, ?_⟩)
        have hcon2 : VALIDATION_LAYER ∉ ls := by simpa using hcon
        unfold create_instance
        simp [hel, hv, hcon2]
      | true =>
        have hpass : layerCheckPassed cfg env := fun _ => ⟨ls, hel, hcon⟩
        have hncond : ¬(cfg.validationEnabled = true ∧ VALIDATION_LAYER ∉ ls) := by
          rintro ⟨_, h2⟩
          exact h2 (by simpa using hcon)
        exact Or.inr (Or.inr (macosCases hpass hncond))

/-- Every call in an `App.create` trace is the library load, the entry
construction, or a call of the inner `create_instance` run. -/
theorem mem_App_create_inv (cfg : Config) (window : Window) (env : Env)
    (c : Call) (h : c ∈ (App.create cfg window env).1) :
    c = Call.loadLibrary ∨ c = Call.createEntry
      ∨ c ∈ (create_instance cfg window env AppData.default).1 := by
  unfold App.create at h
  cases hl : env.loaderResult with
  | error code => simp [hl] at h; tauto
  | ok u =>
    cases he : env.entryResult with
    | error code => simp [hl, he] at h; tauto
    | ok u2 =>
      simp only [hl, he] at h
      cases hp : (create_instance cfg window env AppData.default).2 with
      | error e => simp [hp] at h; tauto
      | ok p =>
        obtain ⟨inst, d⟩ := p
        simp [hp] at h
        tauto

/-- A successful `App.create` is a successful inner `create_instance` on a
default `AppData`, packaged into the `App` fields. -/
theorem App_create_ok_inv (cfg : Config) (window : Window) (env : Env)
    (app : App) (h : (App.create cfg window env).2 = .ok app) :
    (create_instance cfg window env AppData.default).2
      = .ok (app.instance_, app.data) := by
  unfold App.create at h
  cases hl : env.loaderResult with
  | error code => simp [hl] at h
  | ok u =>
    cases he : env.entryResult with
    | error code => simp [hl, he] at h
    | ok u2 =>
      simp only [hl, he] at h
      cases hp : (create_instance cfg window env AppData.default).2 with
      | error e => simp [hp] at h
      | ok p =>
        obtain ⟨inst, d⟩ := p
        simp [hp] at h
        rw [← h]

/-- A name absent from the window's extensions and different from the
debug-utils name is absent from the pre-portability extension list. -/
theorem not_mem_extsBase (cfg : Config) (window : Window) (a : Name)
    (ha : a ∉ window.requiredExtensions)
    (hne : a ≠ EXT_DEBUG_UTILS_EXTENSION) :
    a ∉ extsBase cfg window := by
  unfold extsBase
  split_ifs <;> simp [ha, hne]

/-- Every instance-creation call recorded by `create_instance` carries the
negotiated layer list and one of the two possible extension-list/flags
pairs; moreover on macOS with a loaded version at least the threshold the
portability pair is the one taken. -/
theorem create_instance_call_shape (cfg : Config) (window : Window)
    (env : Env) (data : AppData) (l e : List Name) (f : Nat)
    (h : Call.createInstance l e f ∈ (create_instance cfg window env data).1) :
    l = layersOf cfg
  ∧ ((e = extsBase cfg window ∧ f = 0)
      ∨ (e = extsBase cfg window
            ++ [KHR_GET_PHYSICAL_DEVICE_PROPERTIES2_EXTENSION,
              KHR_PORTABILITY_ENUMERATION_EXTENSION]
          ∧ f = ENUMERATE_PORTABILITY_KHR))
  ∧ (∀ v, cfg.macos = true → env.versionResult = .ok v →
      PORTABILITY_MACOS_VERSION.le v = true →
        e = extsBase cfg window
            ++ [KHR_GET_PHYSICAL_DEVICE_PROPERTIES2_EXTENSION,
              KHR_PORTABILITY_ENUMERATION_EXTENSION]
          ∧ f = ENUMERATE_PORTABILITY_KHR)
  ∧ (∀ v, env.versionResult = .ok v →
      PORTABILITY_MACOS_VERSION.le v = false →
        e = extsBase cfg window ∧ f = 0) := by
  rcases create_instance_cases cfg window env data with
    ⟨c, _, heq⟩ | ⟨ls, _, _, _, heq⟩ | ⟨c, _, _, _, heq⟩ |
    ⟨hm, _, heq⟩ | ⟨v, hm, hver, hle, _, heq⟩ | ⟨v, hm, hver, hle, _, heq⟩
  · rw [heq] at h; simp at h
  · rw [heq] at h; simp at h
  · rw [heq] at h; simp at h
  · rw [heq] at h
    rcases finishCreate_createInstance_inv _ _ _ _ _ _ _ _ _ _ h with
      hpre | ⟨hl, he, hf⟩
    · simp at hpre
    · refine ⟨hl, Or.inl ⟨he, hf⟩, ?_, ?_⟩
      · intro v hm2 _ _
        rw [hm] at hm2
        exact Bool.noConfusion hm2
      · intro v _ _
        exact ⟨he, hf⟩
  · rw [heq] at h
    rcases finishCreate_createInstance_inv _ _ _ _ _ _ _ _ _ _ h with
      hpre | ⟨hl, he, hf⟩
    · simp at hpre
    · refine ⟨hl, Or.inr ⟨he, hf⟩, ?_, ?_⟩
      · intro v2 _ _ _
        exact ⟨he, hf⟩
      · intro v2 hver2 hle2
        rw [hver] at hver2
        injection hver2 with hv2
        rw [← hv2] at hle2
        rw [hle] at hle2
        exact Bool.noConfusion hle2
  · rw [heq] at h
    rcases finishCreate_createInstance_inv _ _ _ _ _ _ _ _ _ _ h with
      hpre | ⟨hl, he, hf⟩
    · simp at hpre
    · refine ⟨hl, Or.inl ⟨he, hf⟩, ?_, ?_⟩
      · intro v2 _ hver2 hle2
        rw [hver] at hver2
        injection hver2 with hv2
        rw [← hv2] at hle2
        rw [hle] at hle2
        exact Bool.noConfusion hle2
      · intro v2 _ _
        exact ⟨he, hf⟩

/-- A messenger-attach call recorded by `create_instance` forces validation
to be enabled. -/
theorem create_instance_messenger_call_validation (cfg : Config)
    (window : Window) (env : Env) (data : AppData)
    (h : Call.createMessenger ∈ (create_instance cfg window env data).1) :
    cfg.validationEnabled = true := by
  rcases create_instance_cases cfg window env data with
    ⟨c, _, heq⟩ | ⟨ls, _, _, _, heq⟩ | ⟨c, _, _, _, heq⟩ |
    ⟨_, _, heq⟩ | ⟨v, _, _, _, _, heq⟩ | ⟨v, _, _, _, _, heq⟩ <;>
    rw [heq] at h
  · simp at h
  · simp at h
  · simp at h
  all_goals
    rcases finishCreate_createMessenger_inv _ _ _ _ _ _ _ h with hpre | hv
  all_goals first
  | simp at hpre
  | exact hv

/- ### Claim theorems -/

/-- C5: `debug_callback` routes every event by severity into exactly four
mutually exclusive branches — abort for severity at least error, a warning
log for severity at least warning but below error, a debug trace for
severity at least info but below warning, and a plain print below info —
and in every branch the type and message carried into the branch's output
are the event's own. -/
theorem C5_callback_severity_routing (s t : Nat) (m : String) :
    ((debug_callback s t m).branch = LogBranch.panicAbort ↔ SEVERITY_ERROR ≤ s)
  ∧ ((debug_callback s t m).branch = LogBranch.warnLog ↔
      SEVERITY_WARNING ≤ s ∧ s < SEVERITY_ERROR)
  ∧ ((debug_callback s t m).branch = LogBranch.debugTrace ↔
      SEVERITY_INFO ≤ s ∧ s < SEVERITY_WARNING)
  ∧ ((debug_callback s t m).branch = LogBranch.printTrace ↔ s < SEVERITY_INFO)
  ∧ (debug_callback s t m).reasonType = t
  ∧ (debug_callback s t m).reasonMessage = m := by
  unfold debug_callback SEVERITY_ERROR SEVERITY_WARNING SEVERITY_INFO
  split_ifs with h1 h2 h3 <;> simp_all <;> omega

/-- C6: on an error-severity event the callback takes the abort branch and
the abort reason carries exactly the type and message values passed in. -/
theorem C6_abort_preserves_type_and_message (s t : Nat) (m : String)
    (h : SEVERITY_ERROR ≤ s) :
    (debug_callback s t m).branch = LogBranch.panicAbort
  ∧ (debug_callback s t m).reasonType = t
  ∧ (debug_callback s t m).reasonMessage = m := by
  unfold debug_callback
  rw [if_pos h]
  exact ⟨rfl, rfl, rfl⟩

/-- Witness for C6 at a concrete error-severity event. -/
theorem C6_witness :
    SEVERITY_ERROR ≤ 4096
  ∧ ((debug_callback 4096 5 "bad barrier").branch = LogBranch.panicAbort
    ∧ (debug_callback 4096 5 "bad barrier").reasonType = 5
    ∧ (debug_callback 4096 5 "bad barrier").reasonMessage = "bad barrier") :=
  ⟨by decide, C6_abort_preserves_type_and_message 4096 5 "bad barrier" (by decide)⟩

/-- C7: on every event below error severity, the callback returns the fixed
"do not suppress" value `FALSE` to the API. -/
theorem C7_nonabort_returns_do_not_suppress (s t : Nat) (m : String)
    (h : s < SEVERITY_ERROR) :
    (debug_callback s t m).returnValue = some FALSE := by
  unfold debug_callback
  rw [if_neg (Nat.not_le.mpr h)]
  split_ifs <;> rfl

/-- Witness for C7 at a concrete verbose-severity event. -/
theorem C7_witness :
    1 < SEVERITY_ERROR
  ∧ (debug_callback 1 2 "verbose note").returnValue = some FALSE :=
  ⟨by decide, C7_nonabort_returns_do_not_suppress 1 2 "verbose note" (by decide)⟩

/-- C10: `App.render` returns success and leaves every field of the `App`
(instance handle, data with its messenger handle, entry) unchanged. -/
theorem C10_render_ok_and_state_unchanged (app : App) (window : Window) :
    (App.render app window).1 = .ok ()
  ∧ (App.render app window).2.instance_ = app.instance_
  ∧ (App.render app window).2.data.messenger = app.data.messenger
  ∧ (App.render app window).2.entry = app.entry
  ∧ (App.render app window).2 = app :=
  ⟨rfl, rfl, rfl, rfl, rfl⟩

/-- C1: evaluated at an `App` whose data holds a non-null messenger handle,
`App.destroy` performs only the instance-destroy call; no messenger-destroy
call occurs at all, so no messenger-destroy precedes the instance-destroy,
contrary to the claimed teardown ordering. -/
theorem C1_destroy_makes_no_messenger_destroy_call :
    App.destroy { instance_ := 1, data := { messenger := 7 }, entry := () }
        = [Call.destroyInstance]
  ∧ (App.destroy
        { instance_ := 1, data := { messenger := 7 }, entry := () }).all
      (fun c => match c with
        | Call.destroyMessenger _ => false
        | _ => true) = true :=
  ⟨rfl, rfl⟩

/-- C2: with validation enabled and the validation layer missing from the
enumerated layers, `create_instance` fails with the unsupported-layer error
and no instance-creation call appears in its trace: the failure occurs
strictly before any instance-creation call. -/
theorem C2_unsupported_layer_fails_before_creation (macos : Bool)
    (window : Window) (env : Env) (data : AppData) (ls : List Name)
    (hEnum : env.enumerateLayersResult = .ok ls)
    (hAbsent : ls.contains VALIDATION_LAYER = false) :
    (create_instance ⟨true, macos⟩ window env data).2
        = .error InitError.unsupportedLayerError
  ∧ ∀ l e f, Call.createInstance l e f ∉
      (create_instance ⟨true, macos⟩ window env data).1 := by
  have hcon2 : VALIDATION_LAYER ∉ ls := by simpa using hAbsent
  unfold create_instance
  rw [hEnum]
  simp [hcon2]

/-- Witness for C2: a concrete environment whose layer enumeration returns
an empty list. -/
theorem C2_witness :
    (create_instance ⟨true, false⟩ windowW envNoLayer AppData.default).2
        = .error InitError.unsupportedLayerError
  ∧ Call.createInstance [] [] 0 ∉
      (create_instance ⟨true, false⟩ windowW envNoLayer AppData.default).1 :=
  ⟨(C2_unsupported_layer_fails_before_creation false windowW envNoLayer
      AppData.default [] rfl rfl).1,
   (C2_unsupported_layer_fails_before_creation false windowW envNoLayer
      AppData.default [] rfl rfl).2 [] [] 0⟩

/-- C9: layer enumeration occurs on every `create_instance` run — with
validation disabled included — and when it fails the whole call fails with
that error and the trace is exactly the enumeration call, so no
instance-creation call was ever made. -/
theorem C9_layer_enumeration_unconditional (cfg : Config) (window : Window)
    (env : Env) (data : AppData) :
    Call.enumerateLayers ∈ (create_instance cfg window env data).1
  ∧ (∀ c, env.enumerateLayersResult = .error c →
      create_instance cfg window env data
        = ([Call.enumerateLayers], .error (.enumerateLayersFailure c))) := by
  constructor
  · rcases create_instance_cases cfg window env data with
      ⟨c, _, heq⟩ | ⟨ls, _, _, _, heq⟩ | ⟨c, _, _, _, heq⟩ |
      ⟨_, _, heq⟩ | ⟨v, _, _, _, _, heq⟩ | ⟨v, _, _, _, _, heq⟩ <;>
      rw [heq]
    · simp
    · simp
    · simp
    · exact mem_finishCreate_of_mem _ _ _ _ _ _ _ _ (by simp)
    · exact mem_finishCreate_of_mem _ _ _ _ _ _ _ _ (by simp)
    · exact mem_finishCreate_of_mem _ _ _ _ _ _ _ _ (by simp)
  · intro c hc
    unfold create_instance
    simp [hc]

/-- Witness for C9: with validation disabled and a concrete failing layer
enumeration, the run is exactly the enumeration call and its error. -/
theorem C9_witness :
    Call.enumerateLayers
      ∈ (create_instance ⟨false, false⟩ windowW envEnumFail AppData.default).1
  ∧ create_instance ⟨false, false⟩ windowW envEnumFail AppData.default
      = ([Call.enumerateLayers], .error (.enumerateLayersFailure 3)) :=
  ⟨(C9_layer_enumeration_unconditional ⟨false, false⟩ windowW envEnumFail
      AppData.default).1,
   (C9_layer_enumeration_unconditional ⟨false, false⟩ windowW envEnumFail
      AppData.default).2 3 rfl⟩

/-- C3: with validation disabled, every instance-creation call of a run
receives an empty layer list and an extension list holding the debug-utils
name no more often than the window supplied it, no messenger-attach call is
made, and a successfully constructed `App` keeps the default (null)
messenger handle. -/
theorem C3_validation_disabled_no_diagnostics (cfg : Config)
    (window : Window) (env : Env)
    (hv : cfg.validationEnabled = false) :
    (∀ l e f, Call.createInstance l e f ∈ (App.create cfg window env).1 →
        l = [] ∧ e.count EXT_DEBUG_UTILS_EXTENSION
          = window.requiredExtensions.count EXT_DEBUG_UTILS_EXTENSION)
  ∧ Call.createMessenger ∉ (App.create cfg window env).1
  ∧ (∀ app, (App.create cfg window env).2 = .ok app →
      app.data.messenger = 0) := by
  refine ⟨?_, ?_, ?_⟩
  · intro l e f hmem
    rcases mem_App_create_inv _ _ _ _ hmem with hq | hq | hq
    · exact absurd hq (by simp)
    · exact absurd hq (by simp)
    · obtain ⟨hl, hshape, -, -⟩ :=
        create_instance_call_shape _ _ _ _ _ _ _ hq
      have hbase : extsBase cfg window = window.requiredExtensions := by
        simp [extsBase, hv]
      constructor
      · rw [hl]; simp [layersOf, hv]
      · have hz : ([KHR_GET_PHYSICAL_DEVICE_PROPERTIES2_EXTENSION,
            KHR_PORTABILITY_ENUMERATION_EXTENSION] : List Name).count
              EXT_DEBUG_UTILS_EXTENSION = 0 := by decide
        rcases hshape with ⟨he, -⟩ | ⟨he, -⟩
        · rw [he, hbase]
        · rw [he, hbase, List.count_append, hz]
          omega
  · intro hmem
    rcases mem_App_create_inv _ _ _ _ hmem with hq | hq | hq
    · exact absurd hq (by simp)
    · exact absurd hq (by simp)
    · have hvt := create_instance_messenger_call_validation _ _ _ _ hq
      rw [hv] at hvt
      exact Bool.noConfusion hvt
  · intro app happ
    have hok := App_create_ok_inv _ _ _ _ happ
    rcases create_instance_cases cfg window env AppData.default with
      ⟨c, _, heq⟩ | ⟨ls, _, _, _, heq⟩ | ⟨c, _, _, _, heq⟩ |
      ⟨_, _, heq⟩ | ⟨v, _, _, _, _, heq⟩ | ⟨v, _, _, _, _, heq⟩ <;>
      rw [heq] at hok
    · exact absurd hok (by simp)
    · exact absurd hok (by simp)
    · exact absurd hok (by simp)
    all_goals
      rcases finishCreate_ok_inv _ _ _ _ _ _ _ _ _ hok with
        ⟨hvf, hd⟩ | ⟨hvt, m, hcm, hd⟩
    all_goals first
    | (rw [hd]; rfl)
    | (rw [hv] at hvt; exact Bool.noConfusion hvt)

/-- Witness for C3: a concrete validation-disabled run, instantiated at the
one instance-creation call of its trace and at its constructed `App`. -/
theorem C3_witness :
    (([] : List Name) = []
      ∧ (["VK_KHR_surface"] : List Name).count EXT_DEBUG_UTILS_EXTENSION
          = windowW.requiredExtensions.count EXT_DEBUG_UTILS_EXTENSION)
  ∧ Call.createMessenger ∉ (App.create ⟨false, false⟩ windowW envOk).1
  ∧ ({ instance_ := 1, data := { messenger := 0 }, entry := () }
      : App).data.messenger = 0 :=
  ⟨(C3_validation_disabled_no_diagnostics ⟨false, false⟩ windowW envOk rfl).1
      [] ["VK_KHR_surface"] 0 (by decide),
   (C3_validation_disabled_no_diagnostics ⟨false, false⟩ windowW envOk rfl).2.1,
   (C3_validation_disabled_no_diagnostics ⟨false, false⟩ windowW envOk rfl).2.2
      { instance_ := 1, data := { messenger := 0 }, entry := () } rfl⟩

/-- C4: on macOS with the loaded version at least the `1.3.126` threshold,
every instance-creation call carries each of the two portability extension
names exactly once and the portability-enumeration flag; with the version
below the threshold it carries neither name and empty (zero) flags. The
window is assumed not to supply the portability names itself. -/
theorem C4_macos_portability (cfg : Config) (window : Window) (env : Env)
    (data : AppData) (v : Version)
    (hm : cfg.macos = true)
    (hver : env.versionResult = .ok v)
    (hw1 : KHR_GET_PHYSICAL_DEVICE_PROPERTIES2_EXTENSION
        ∉ window.requiredExtensions)
    (hw2 : KHR_PORTABILITY_ENUMERATION_EXTENSION
        ∉ window.requiredExtensions) :
    (PORTABILITY_MACOS_VERSION.le v = true →
      ∀ l e f, Call.createInstance l e f
          ∈ (create_instance cfg window env data).1 →
        e.count KHR_GET_PHYSICAL_DEVICE_PROPERTIES2_EXTENSION = 1
      ∧ e.count KHR_PORTABILITY_ENUMERATION_EXTENSION = 1
      ∧ f = ENUMERATE_PORTABILITY_KHR)
  ∧ (PORTABILITY_MACOS_VERSION.le v = false →
      ∀ l e f, Call.createInstance l e f
          ∈ (create_instance cfg window env data).1 →
        KHR_GET_PHYSICAL_DEVICE_PROPERTIES2_EXTENSION ∉ e
      ∧ KHR_PORTABILITY_ENUMERATION_EXTENSION ∉ e
      ∧ f = 0) := by
  have hb1 : KHR_GET_PHYSICAL_DEVICE_PROPERTIES2_EXTENSION
      ∉ extsBase cfg window := not_mem_extsBase _ _ _ hw1 (by decide)
  have hb2 : KHR_PORTABILITY_ENUMERATION_EXTENSION
      ∉ extsBase cfg window := not_mem_extsBase _ _ _ hw2 (by decide)
  constructor
  · intro hle l e f hmem
    obtain ⟨-, -, hpos, -⟩ := create_instance_call_shape _ _ _ _ _ _ _ hmem
    obtain ⟨he, hf⟩ := hpos v hm hver hle
    subst he
    refine ⟨?_, ?_, hf⟩
    · rw [List.count_append, List.count_eq_zero.mpr hb1]
      decide
    · rw [List.count_append, List.count_eq_zero.mpr hb2]
      decide
  · intro hle l e f hmem
    obtain ⟨-, -, -, hneg⟩ := create_instance_call_shape _ _ _ _ _ _ _ hmem
    obtain ⟨he, hf⟩ := hneg v hver hle
    subst he
    exact ⟨hb1, hb2, hf⟩

/-- Witness for C4: a concrete macOS run with loaded version `1.3.200`
(at least the threshold), instantiated at the one instance-creation call of
its trace. -/
theorem C4_witness :
    (["VK_KHR_surface", KHR_GET_PHYSICAL_DEVICE_PROPERTIES2_EXTENSION,
        KHR_PORTABILITY_ENUMERATION_EXTENSION] : List Name).count
          KHR_GET_PHYSICAL_DEVICE_PROPERTIES2_EXTENSION = 1
  ∧ (["VK_KHR_surface", KHR_GET_PHYSICAL_DEVICE_PROPERTIES2_EXTENSION,
        KHR_PORTABILITY_ENUMERATION_EXTENSION] : List Name).count
          KHR_PORTABILITY_ENUMERATION_EXTENSION = 1
  ∧ (1 : Nat) = ENUMERATE_PORTABILITY_KHR :=
  (C4_macos_portability ⟨false, true⟩ windowW envOk AppData.default
      ⟨1, 3, 200⟩ rfl rfl (by decide) (by decide)).1 rfl
    [] ["VK_KHR_surface", KHR_GET_PHYSICAL_DEVICE_PROPERTIES2_EXTENSION,
      KHR_PORTABILITY_ENUMERATION_EXTENSION] 1 (by decide)

/-- C8: for a successfully constructed `App`, the messenger handle is
non-null exactly when validation is enabled and the validation layer was
found among the enumerated layers (the attach call having necessarily
succeeded, since an attach failure fails the whole construction), under the
API guarantee that a successful attach returns a non-null handle. -/
theorem C8_messenger_iff_validation_and_layer (cfg : Config)
    (window : Window) (env : Env) (app : App)
    (hnn : ∀ m, env.createMessengerResult = .ok m → m ≠ 0)
    (happ : (App.create cfg window env).2 = .ok app) :
    (app.data.messenger ≠ 0 ↔
      cfg.validationEnabled = true
        ∧ validationLayerAvailable env = true) := by
  have hok := App_create_ok_inv _ _ _ _ happ
  rcases create_instance_cases cfg window env AppData.default with
    ⟨c, _, heq⟩ | ⟨ls, _, _, _, heq⟩ | ⟨c, _, _, hpass, heq⟩ |
    ⟨_, hpass, heq⟩ | ⟨v, _, _, _, hpass, heq⟩ | ⟨v, _, _, _, hpass, heq⟩ <;>
    rw [heq] at hok
  · exact absurd hok (by simp)
  · exact absurd hok (by simp)
  · exact absurd hok (by simp)
  all_goals
    rcases finishCreate_ok_inv _ _ _ _ _ _ _ _ _ hok with
      ⟨hvf, hd⟩ | ⟨hvt, m, hcm, hd⟩
  all_goals first
  | (constructor
     · intro hmess
       rw [hd] at hmess
       exact (hmess rfl).elim
     · rintro ⟨hv1, -⟩
       rw [hvf] at hv1
       exact Bool.noConfusion hv1)
  | (constructor
     · intro _
       refine ⟨hvt, ?_⟩
       obtain ⟨ls2, hel2, hcon2⟩ := hpass hvt
       unfold validationLayerAvailable
       rw [hel2]
       exact hcon2
     · intro _
       rw [hd]
       exact hnn m hcm)

/-- Witness for C8: a concrete validation-enabled run where every call
succeeds and the attach call returns handle 2. -/
theorem C8_witness :
    (({ instance_ := 1, data := { messenger := 2 }, entry := () }
        : App).data.messenger ≠ 0 ↔
      (⟨true, false⟩ : Config).validationEnabled = true
        ∧ validationLayerAvailable envOk = true) :=
  C8_messenger_iff_validation_and_layer ⟨true, false⟩ windowW envOk
    { instance_ := 1, data := { messenger := 2 }, entry := () }
    (fun m hm => by simp [envOk] at hm; omega) rfl

end VulkanTutorial
